import Mathlib

set_option maxRecDepth 100000

/-!
Shallow embedding of the title-generator core (rlaksana/title-generator):
the response cleaner, the validation service and the generation
orchestrator, translated from `src/aiService.ts`, `src/validation.ts`,
`src/constants.ts` and `src/types.ts`.

Strings are modelled as `List Char`.  JavaScript string methods are
translated pointwise: `trim` drops ASCII whitespace at both ends,
`replace` with a string pattern rewrites the first occurrence,
`toLowerCase`/`toUpperCase` act per character (all inputs of interest are
ASCII), and the two regular expressions of `cleanAIResponse` are unfolded
into explicit prefix/suffix scans.  The `$`-escape sequences JavaScript
interprets inside a string replacement are not modelled.
-/

namespace TitleGen

/-- ASCII whitespace, the characters matched by `\s` and trimmed by
JavaScript `String.prototype.trim` on ASCII input. -/
def isWsChar (c : Char) : Bool :=
  c = ' ' || c = '\t' || c = '\n' || c = '\r' || c = Char.ofNat 11 || c = Char.ofNat 12

/-- JavaScript `trim`: drop whitespace from both ends. -/
def trimChars (xs : List Char) : List Char :=
  ((xs.dropWhile isWsChar).reverse.dropWhile isWsChar).reverse

/-- The apostrophe character (U+0027). -/
def apos : Char := Char.ofNat 39

/-- Per-character lower-casing, the ASCII fragment of JavaScript
`toLowerCase`. -/
def lowerChars (xs : List Char) : List Char := xs.map Char.toLower

/-- Per-character upper-casing, the ASCII fragment of JavaScript
`toUpperCase`. -/
def upperChars (xs : List Char) : List Char := xs.map Char.toUpper

/-- Split a list at the first occurrence of `pat`: returns the part
before the occurrence and the part after it.  `none` when `pat` does not
occur.  This is the search underlying JavaScript `indexOf`,
`String.prototype.includes` and first-occurrence `replace`. -/
def splitFirst (pat : List Char) : List Char → Option (List Char × List Char)
  | [] => if pat = [] then some ([], []) else none
  | c :: rest =>
    if pat.isPrefixOf (c :: rest) then some ([], (c :: rest).drop pat.length)
    else
      match splitFirst pat rest with
      | some (pre, post) => some (c :: pre, post)
      | none => none

/-- JavaScript `String.prototype.includes`. -/
def containsSub (xs pat : List Char) : Bool := (splitFirst pat xs).isSome

/-- JavaScript `String.prototype.replace` with a plain string pattern:
replace the first occurrence only. -/
def replaceFirst (xs pat rep : List Char) : List Char :=
  match splitFirst pat xs with
  | some (pre, post) => pre ++ rep ++ post
  | none => xs

/-- The opening reasoning delimiter recognised by `cleanAIResponse`. -/
def thinkOpen : List Char := ("<think>" : String).data

/-- The closing reasoning delimiter recognised by `cleanAIResponse`. -/
def thinkClose : List Char := ("</think>" : String).data

/-- One pass of the global regex `<think>[\s\S]*?<\/think>` of
`cleanAIResponse`: find the leftmost `<think>`, join it lazily with the
first following `</think>`, delete the span, continue after it.  When the
leftmost `<think>` has no closing tag the regex has no further match and
the text is left as is.  `fuel` bounds the recursion; each removed span
has at least 15 characters, so `fuel = xs.length` is always enough. -/
def removeThinks (fuel : Nat) (xs : List Char) : List Char :=
  match fuel with
  | 0 => xs
  | fuel + 1 =>
    match splitFirst thinkOpen xs with
    | none => xs
    | some (pre, afterOpen) =>
      match splitFirst thinkClose afterOpen with
      | none => xs
      | some (_, afterClose) => pre ++ removeThinks fuel afterClose

/-- `text.replace(/<think>[\s\S]*?<\/think>/g, '')` from
`cleanAIResponse` (src/aiService.ts line 394). -/
def removeThinkBlocks (xs : List Char) : List Char := removeThinks xs.length xs

/-- "Here's the title:" (built by concatenation to carry the
apostrophe). -/
def heresTheTitle : List Char :=
  ("Here" : String).data ++ [apos] ++ ("s the title:" : String).data

/-- "I'll". -/
def iWillContract : List Char := ("I" : String).data ++ [apos] ++ ("ll" : String).data

/-- The alternatives of the conversational-filler test regex of
`cleanAIResponse` (src/aiService.ts line 407), in source order. -/
def preambleTestPats : List (List Char) :=
  [("Title:" : String).data,
   ("Generated title:" : String).data,
   ("Suggested title:" : String).data,
   ("The title:" : String).data,
   ("A title:" : String).data,
   heresTheTitle,
   ("Sure, here" : String).data,
   iWillContract,
   ("I would" : String).data,
   ("Based on" : String).data]

/-- The alternatives of the prefix-stripping regex of `cleanAIResponse`
(src/aiService.ts line 423), in source order. -/
def labelPats : List (List Char) :=
  [("Title:" : String).data,
   ("Generated title:" : String).data,
   ("Suggested title:" : String).data,
   ("The title:" : String).data,
   ("A title:" : String).data,
   heresTheTitle]

/-- Case-insensitive `startsWith`, the effect of an `^...` pattern under
the `i` flag on ASCII text. -/
def startsWithCI (pat xs : List Char) : Bool :=
  (lowerChars pat).isPrefixOf (lowerChars xs)

/-- `line` matches the anchored case-insensitive preamble test regex. -/
def isPreambleLine (line : List Char) : Bool :=
  preambleTestPats.any (fun p => startsWithCI p line)

/-- `bestCandidate.replace(/^(Title:|...)\s*/i, '')`: drop the first
matching label alternative and the whitespace after it. -/
def stripLabel (xs : List Char) : List Char :=
  match labelPats.find? (fun p => startsWithCI p xs) with
  | some p => (xs.drop p.length).dropWhile isWsChar
  | none => xs

/-- `finalTitle.replace(/["']/g, '')`: delete every quote character. -/
def stripQuotes (xs : List Char) : List Char :=
  xs.filter (fun c => !(c = '"' || c = apos))

/-- `cleanAIResponse` (src/aiService.ts lines 381-429).

Steps, as in the source: empty input short-circuits; trim; if the whole
trimmed text matches `^<think>([\s\S]*)<\/think>$` and the captured group
is non-empty (JavaScript truthiness of `thinkMatch[1]`), the working text
becomes the trimmed interior; remaining `<think>...</think>` spans are
removed and the text trimmed again; the text is split into trimmed
non-empty lines; the first line not matching the preamble test regex is
the candidate, falling back to the first line; finally a leading label is
stripped, quotes are deleted, and the result trimmed. -/
def cleanAIResponse (response : List Char) : List Char :=
  if response = [] then []
  else
    let t0 := trimChars response
    let interior := (t0.drop thinkOpen.length).take (t0.length - (thinkOpen.length + thinkClose.length))
    let t1 :=
      if thinkOpen.isPrefixOf t0 && thinkClose.isSuffixOf t0
          && decide (thinkOpen.length + thinkClose.length ≤ t0.length)
          && !interior.isEmpty then
        trimChars interior
      else t0
    let t2 := trimChars (removeThinkBlocks t1)
    let lines := ((t2.splitOn '\n').map trimChars).filter (fun l => !l.isEmpty)
    let best :=
      match lines.find? (fun l => !isPreambleLine l) with
      | some l => l
      | none => lines.headD []
    trimChars (stripQuotes (stripLabel best))

/-- The runtime value of the `aiProvider` settings field.  The TypeScript
type is the closed union `'openai' | 'anthropic' | 'google'`, but at
runtime the field is a plain string, so a corrupted configuration can
carry any tag; `other` models those out-of-enumeration tags. -/
inductive AIProviderTag
  | openai
  | anthropic
  | google
  | other (tag : List Char)
deriving DecidableEq

/-- The string value of the provider tag. -/
def tagName : AIProviderTag → List Char
  | .openai => ("openai" : String).data
  | .anthropic => ("anthropic" : String).data
  | .google => ("google" : String).data
  | .other t => t

/-- The fields of `TitleGeneratorSettings` read through the name lookup
of `getApiKeyField` / `getModelField`. -/
inductive SettingsField
  | openAiApiKeyField
  | anthropicApiKeyField
  | googleApiKeyField
  | openAiModelField
  | anthropicModelField
  | googleModelField
deriving DecidableEq

/-- `TitleGeneratorSettings` (src/types.ts), restricted to the fields the
validation service and the orchestration path read.  `cachedModels`,
`modelLoadingState`, `debugMode`, the thinking controls and the
duplicate-detection options are omitted: the first four are only read by
the UI layer and the provider adapters, which are abstracted behind the
provider oracle, and the last group is never read by the core.  The two
length bounds are bounded non-negative integers in the data model, hence
`Nat`. -/
structure TitleGeneratorSettings where
  aiProvider : AIProviderTag
  openAiApiKey : List Char
  anthropicApiKey : List Char
  googleApiKey : List Char
  openAiModel : List Char
  anthropicModel : List Char
  googleModel : List Char
  lowerCaseTitles : Bool
  removeForbiddenChars : Bool
  customPrompt : List Char
  temperature : Rat
  maxTitleLength : Nat
  maxContentLength : Nat
  refinePrompt : List Char
deriving DecidableEq

/-- Read a settings field by its looked-up name. -/
def readField (s : TitleGeneratorSettings) : SettingsField → List Char
  | .openAiApiKeyField => s.openAiApiKey
  | .anthropicApiKeyField => s.anthropicApiKey
  | .googleApiKeyField => s.googleApiKey
  | .openAiModelField => s.openAiModel
  | .anthropicModelField => s.anthropicModel
  | .googleModelField => s.googleModel

/-- `ValidationResult` (src/validation.ts lines 8-12). -/
structure ValidationResult where
  valid : Bool
  errors : List (List Char)
  warnings : List (List Char)
deriving DecidableEq

/-- Modelled from the spec: the `TitleGeneratorError` class thrown by
`getApiKeyField` / `getModelField`; `src/errorHandler.ts` is not in the
sources, so the class is taken from the spec's UnknownProviderError
description (a distinct "unknown provider" error kind carrying a
message).  The constructor arguments mirror the call sites in
src/validation.ts. -/
structure TitleGeneratorError where
  message : List Char
  code : List Char
  userMessage : List Char
deriving DecidableEq

/-- `validateApiKey` (src/validation.ts lines 21-72). -/
def validateApiKey (apiKey : List Char) (provider : AIProviderTag) : ValidationResult :=
  if apiKey = [] then
    { valid := false, errors := [("API key is required" : String).data], warnings := [] }
  else
    let trimmedKey := trimChars apiKey
    if trimmedKey = [] then
      { valid := false, errors := [("API key cannot be empty" : String).data], warnings := [] }
    else
      let st1 : Bool × List (List Char) := (true, [])
      let st2 :=
        if trimmedKey.length < 10 then
          (false, st1.2 ++ [("API key must be at least 10 characters long" : String).data])
        else st1
      let st3 :=
        if 200 < trimmedKey.length then
          (false, st2.2 ++ [("API key must be no more than 200 characters long" : String).data])
        else st2
      let warns :=
        match provider with
        | .openai =>
          if !(("sk-" : String).data.isPrefixOf trimmedKey) then
            [("OpenAI API keys typically start with \"sk-\"" : String).data]
          else []
        | .anthropic =>
          if !(("sk-ant-" : String).data.isPrefixOf trimmedKey) then
            [("Anthropic API keys typically start with \"sk-ant-\"" : String).data]
          else []
        | .google =>
          if trimmedKey.length < 20 then
            [("Google API keys are typically longer than 20 characters" : String).data]
          else []
        | .other _ => []
      { valid := st3.1, errors := st3.2, warnings := warns }

/-- `validateModelName` (src/validation.ts lines 77-128). -/
def validateModelName (modelName : List Char) (provider : AIProviderTag) : ValidationResult :=
  if modelName = [] then
    { valid := false, errors := [("Model name is required" : String).data], warnings := [] }
  else
    let trimmedName := trimChars modelName
    if trimmedName = [] then
      { valid := false, errors := [("Model name cannot be empty" : String).data], warnings := [] }
    else
      let st1 : Bool × List (List Char) := (true, [])
      let st2 :=
        if trimmedName.length < 1 then
          (false, st1.2 ++ [("Model name must be at least 1 character long" : String).data])
        else st1
      let st3 :=
        if 100 < trimmedName.length then
          (false, st2.2 ++ [("Model name must be no more than 100 characters long" : String).data])
        else st2
      let warns :=
        match provider with
        | .openai =>
          if !(containsSub trimmedName ("gpt" : String).data) then
            [("OpenAI models typically contain \"gpt\" in the name" : String).data]
          else []
        | .anthropic =>
          if !(containsSub trimmedName ("claude" : String).data) then
            [("Anthropic models typically contain \"claude\" in the name" : String).data]
          else []
        | .google =>
          if !(containsSub trimmedName ("gemini" : String).data) then
            [("Google models typically contain \"gemini\" in the name" : String).data]
          else []
        | .other _ => []
      { valid := st3.1, errors := st3.2, warnings := warns }

/-- The `{max_length}` placeholder (src/constants.ts VALIDATION_RULES). -/
def mlPat : List Char := ("{max_length}" : String).data

/-- The `{title}` placeholder (src/constants.ts VALIDATION_RULES). -/
def titlePat : List Char := ("{title}" : String).data

/-- `validatePrompt` (src/validation.ts lines 133-183).  Both rule sets
share the same [10, 1000] length bounds; the refinement flag selects the
required placeholders. -/
def validatePrompt (prompt : List Char) (isRefinementPrompt : Bool) : ValidationResult :=
  if prompt = [] then
    { valid := false, errors := [("Prompt is required" : String).data], warnings := [] }
  else
    let trimmedPrompt := trimChars prompt
    if trimmedPrompt = [] then
      { valid := false, errors := [("Prompt cannot be empty" : String).data], warnings := [] }
    else
      let st1 : Bool × List (List Char) := (true, [])
      let st2 :=
        if trimmedPrompt.length < 10 then
          (false, st1.2 ++ [("Prompt must be at least 10 characters long" : String).data])
        else st1
      let st3 :=
        if 1000 < trimmedPrompt.length then
          (false, st2.2 ++ [("Prompt must be no more than 1000 characters long" : String).data])
        else st2
      let st4 :=
        if isRefinementPrompt then
          [mlPat, titlePat].foldl
            (fun st ph =>
              if !(containsSub trimmedPrompt ph) then
                (false, st.2 ++ [("Refinement prompt must contain placeholder: " : String).data ++ ph])
              else st)
            st3
        else
          if !(containsSub trimmedPrompt mlPat) then
            (false, st3.2 ++ [("Prompt must contain placeholder: " : String).data ++ mlPat])
          else st3
      { valid := st4.1, errors := st4.2, warnings := [] }

/-- `validateTemperature` (src/validation.ts lines 188-219).  The
temperature is modelled as a rational; the `typeof`/`isNaN` guard of the
source has no counterpart because every `Rat` is a finite number. -/
def validateTemperature (temperature : Rat) : ValidationResult :=
  let st1 : Bool × List (List Char) := (true, [])
  let st2 :=
    if temperature < 0 then
      (false, st1.2 ++ [("Temperature must be at least 0" : String).data])
    else st1
  let st3 :=
    if 1 < temperature then
      (false, st2.2 ++ [("Temperature must be no more than 1" : String).data])
    else st2
  let warns :=
    if temperature = 0 then
      [("Temperature of 0 will produce very predictable results" : String).data]
    else if 9 / 10 ≤ temperature then
      [("High temperature values may produce inconsistent results" : String).data]
    else []
  { valid := st3.1, errors := st3.2, warnings := warns }

/-- `validateMaxTitleLength` (src/validation.ts lines 224-255).  The
input is an `Int`; the `typeof`/`isNaN`/`Number.isInteger` guard of the
source has no counterpart because every `Int` is an integer. -/
def validateMaxTitleLength (length : Int) : ValidationResult :=
  let st1 : Bool × List (List Char) := (true, [])
  let st2 :=
    if length < 10 then
      (false, st1.2 ++ [("Max title length must be at least 10" : String).data])
    else st1
  let st3 :=
    if 500 < length then
      (false, st2.2 ++ [("Max title length must be no more than 500" : String).data])
    else st2
  let warns :=
    if length < 30 then
      [("Short titles may not be descriptive enough" : String).data]
    else if 100 < length then
      [("Long titles may not be suitable for all file systems" : String).data]
    else []
  { valid := st3.1, errors := st3.2, warnings := warns }

/-- `validateMaxContentLength` (src/validation.ts lines 260-291). -/
def validateMaxContentLength (length : Int) : ValidationResult :=
  let st1 : Bool × List (List Char) := (true, [])
  let st2 :=
    if length < 100 then
      (false, st1.2 ++ [("Max content length must be at least 100" : String).data])
    else st1
  let st3 :=
    if 10000 < length then
      (false, st2.2 ++ [("Max content length must be no more than 10000" : String).data])
    else st2
  let warns :=
    if length < 500 then
      [("Very short content may not provide enough context for good titles" : String).data]
    else if 5000 < length then
      [("Very long content may increase API costs significantly" : String).data]
    else []
  { valid := st3.1, errors := st3.2, warnings := warns }

/-- The error thrown for a provider tag outside the closed enumeration
(src/validation.ts lines 487-491 and 507-511). -/
def unknownProviderError (provider : AIProviderTag) : TitleGeneratorError :=
  { message := ("Unknown provider: " : String).data ++ tagName provider,
    code := ("UNKNOWN_PROVIDER" : String).data,
    userMessage := ("Unknown AI provider" : String).data }

/-- `getApiKeyField` (src/validation.ts lines 478-493): the API-key field
name for a provider; throws `TitleGeneratorError` for a tag outside the
enumeration. -/
def getApiKeyField : AIProviderTag → Except TitleGeneratorError SettingsField
  | .openai => .ok .openAiApiKeyField
  | .anthropic => .ok .anthropicApiKeyField
  | .google => .ok .googleApiKeyField
  | .other t => .error (unknownProviderError (.other t))

/-- `getModelField` (src/validation.ts lines 498-513). -/
def getModelField : AIProviderTag → Except TitleGeneratorError SettingsField
  | .openai => .ok .openAiModelField
  | .anthropic => .ok .anthropicModelField
  | .google => .ok .googleModelField
  | .other t => .error (unknownProviderError (.other t))

/-- The aggregation step of `validateSettings`: append the sub-result's
errors and warnings and clear `valid` when the sub-result is invalid. -/
def vrCombine (a b : ValidationResult) : ValidationResult :=
  { valid := a.valid && b.valid, errors := a.errors ++ b.errors, warnings := a.warnings ++ b.warnings }

/-- `validateSettings` (src/validation.ts lines 296-376).  The field
lookups can throw (propagated, as in the source, by the absence of any
try/catch around them); everything else accumulates into one result. -/
def validateSettings (s : TitleGeneratorSettings) : Except TitleGeneratorError ValidationResult := do
  let apiKeyField ← getApiKeyField s.aiProvider
  let apiKey := readField s apiKeyField
  let keyPart :=
    if apiKey ≠ [] then validateApiKey apiKey s.aiProvider
    else
      { valid := false,
        errors := [upperChars (tagName s.aiProvider) ++ (" API key is required" : String).data],
        warnings := [] }
  let modelField ← getModelField s.aiProvider
  let model := readField s modelField
  let modelPart :=
    if model ≠ [] then validateModelName model s.aiProvider
    else
      { valid := false,
        errors := [upperChars (tagName s.aiProvider) ++ (" model is required" : String).data],
        warnings := [] }
  let parts := [keyPart, modelPart,
    validatePrompt s.customPrompt false,
    validatePrompt s.refinePrompt true,
    validateTemperature s.temperature,
    validateMaxTitleLength (s.maxTitleLength : Int),
    validateMaxContentLength (s.maxContentLength : Int)]
  return parts.foldl vrCombine { valid := true, errors := [], warnings := [] }

/-- The characters of `TITLE_CONFIG.FORBIDDEN_CHARS`
(src/constants.ts): `[<>:"\/\\|?*\x00-\x1F]`. -/
def isForbiddenChar (c : Char) : Bool :=
  c = '<' || c = '>' || c = ':' || c = '"' || c = '/' || c = '\\'
    || c = '|' || c = '?' || c = '*' || decide (c.toNat ≤ 31)

/-- `TITLE_CONFIG.FALLBACK_TITLE` (src/constants.ts). -/
def fallbackTitle : List Char := ("Untitled" : String).data

/-- `text.replace(/\s+/g, ' ')`: collapse every whitespace run to a
single space.  The flag records whether the previous character was part
of a run already emitted. -/
def collapseWsAux : Bool → List Char → List Char
  | _, [] => []
  | prevWs, c :: rest =>
    if isWsChar c then
      if prevWs then collapseWsAux true rest
      else ' ' :: collapseWsAux true rest
    else c :: collapseWsAux false rest

/-- `safe.replace(/^[ .]+|[ .]+$/g, '')`: drop space-or-dot runs at both
ends. -/
def trimSpaceDots (xs : List Char) : List Char :=
  let isSpaceDot : Char → Bool := fun c => c = ' ' || c = '.'
  ((xs.dropWhile isSpaceDot).reverse.dropWhile isSpaceDot).reverse

/-- `sanitizeFilename` (src/validation.ts lines 397-413).  The spec
identifies the orchestrator's forbidden-character sanitation with this
function (its own copy lives in the absent `src/utils.ts`). -/
def sanitizeFilename (filename : List Char) : List Char :=
  if filename = [] then fallbackTitle
  else
    let safe1 := filename.filter (fun c => !isForbiddenChar c)
    let safe2 := trimChars (collapseWsAux false safe1)
    let safe3 := trimSpaceDots safe2
    if 0 < safe3.length then safe3 else fallbackTitle

/-- Decimal rendering of a number, JavaScript `Number.prototype.toString`
on a non-negative integer. -/
def numChars (n : Nat) : List Char := (toString n).data

/-- The initial prompt of `generateTitle` (src/aiService.ts lines 39-42):
`settings.customPrompt.replace('{max_length}', settings.maxTitleLength.toString())`. -/
def mkInitialPrompt (s : TitleGeneratorSettings) : List Char :=
  replaceFirst s.customPrompt mlPat (numChars s.maxTitleLength)

/-- The refinement prompt of attempts 2-3 (src/aiService.ts lines 61-63):
`settings.refinePrompt.replace('{max_length}', ...).replace('{title}', title)`,
with `title` the previous attempt's cleaned title. -/
def mkRefinePrompt (s : TitleGeneratorSettings) (title : List Char) : List Char :=
  replaceFirst (replaceFirst s.refinePrompt mlPat (numChars s.maxTitleLength)) titlePat title

/-- `isConfigurationValid` (src/aiService.ts lines 124-182): the active
provider's API key must not be blank after trimming and its model must be
non-empty; a tag outside the enumeration hits the `default` branch and is
invalid. -/
def isConfigurationValid (s : TitleGeneratorSettings) : Bool :=
  match s.aiProvider with
  | .openai => !(trimChars s.openAiApiKey).isEmpty && !s.openAiModel.isEmpty
  | .anthropic => !(trimChars s.anthropicApiKey).isEmpty && !s.anthropicModel.isEmpty
  | .google => !(trimChars s.googleApiKey).isEmpty && !s.googleModel.isEmpty
  | .other _ => false

/-- One loop iteration's record: attempt index, the prompt and content
handed to `callAI`, and the raw and cleaned response. -/
structure GenerationAttempt where
  idx : Nat
  prompt : List Char
  content : List Char
  raw : List Char
  cleaned : List Char
deriving DecidableEq

/-- Modelled from the spec: `truncateTitle` lives in `src/utils.ts`,
which is not in the sources; the spec describes it as "a final hard
truncation safeguard to the configured max length regardless of prior
steps", i.e. keep at most `maxLength` characters. -/
def truncateTitle (title : List Char) (maxLength : Nat) : List Char :=
  title.take maxLength

/-- The final processing of `generateTitle` (src/aiService.ts lines
79-87): optional lower-casing, then optional forbidden-character
sanitation. -/
def postProcessTitle (s : TitleGeneratorSettings) (title : List Char) : List Char :=
  let t1 := if s.lowerCaseTitles then lowerChars title else title
  if s.removeForbiddenChars then sanitizeFilename t1 else t1

/-- Post-processing followed by the unconditional final truncation
safeguard (src/aiService.ts line 90). -/
def finalizeTitle (s : TitleGeneratorSettings) (title : List Char) : List Char :=
  truncateTitle (postProcessTitle s title) s.maxTitleLength

/-- The attempt loop of `generateTitle` (src/aiService.ts lines 45-77).
The provider oracle stands for `callAI`: it maps the attempt number to
either the text of a resolved provider call or a thrown error message
(the response text for attempt `i` is the same whatever prompt is sent,
which loses nothing since each claim quantifies over oracles).  On
success the loop yields the current title, the completed attempts and
the number of calls; a thrown error carries the same bookkeeping with
the failed call counted. -/
def genLoop (s : TitleGeneratorSettings) (noteContent : List Char)
    (provider : Nat → Except (List Char) (List Char)) :
    Nat → Nat → List Char → List GenerationAttempt →
    Except (List Char × List GenerationAttempt × Nat) (List Char × List GenerationAttempt × Nat)
  | 0, _, title, acc => .ok (title, acc, acc.length)
  | fuel + 1, attempt, title, acc =>
    let currentPrompt := if attempt = 1 then mkInitialPrompt s else mkRefinePrompt s title
    let currentContent := if attempt = 1 then noteContent.take s.maxContentLength else []
    match provider attempt with
    | .error e => .error (e, acc, acc.length + 1)
    | .ok rawTitle =>
      let cleaned := cleanAIResponse rawTitle
      let att : GenerationAttempt :=
        { idx := attempt, prompt := currentPrompt, content := currentContent,
          raw := rawTitle, cleaned := cleaned }
      if 0 < cleaned.length ∧ cleaned.length ≤ s.maxTitleLength then
        .ok (cleaned, acc ++ [att], (acc ++ [att]).length)
      else
        genLoop s noteContent provider fuel (attempt + 1) cleaned (acc ++ [att])

/-- The observable outcome of one `generateTitle` call: the returned
string, the completed attempts, the number of provider calls made, and
whether the catch block was reached. -/
structure GenOutcome where
  title : List Char
  attempts : List GenerationAttempt
  calls : Nat
  errored : Bool
deriving DecidableEq

/-- `generateTitle` (src/aiService.ts lines 19-111): configuration
check, three-attempt loop, final processing with truncation safeguard,
and the catch block that turns any thrown error into an empty-string
return. -/
def generateTitle (s : TitleGeneratorSettings) (noteContent : List Char)
    (provider : Nat → Except (List Char) (List Char)) : GenOutcome :=
  if isConfigurationValid s then
    match genLoop s noteContent provider 3 1 [] [] with
    | .ok (t, atts, calls) =>
      { title := finalizeTitle s t, attempts := atts, calls := calls, errored := false }
    | .error (_, atts, calls) =>
      { title := [], attempts := atts, calls := calls, errored := true }
  else
    { title := [], attempts := [], calls := 0, errored := false }

/-- A JSON-like runtime value, the shape space of the `response: any`
argument of `validateApiResponse`.  `null` also stands for
`undefined` (the two are indistinguishable to the truthiness and
property-access operations the function performs). -/
inductive Json where
  | null
  | bool (b : Bool)
  | num (n : Int)
  | str (s : List Char)
  | arr (xs : List Json)
  | obj (fields : List (List Char × Json))

/-- JavaScript truthiness of a runtime value. -/
def Json.truthy : Json → Bool
  | .null => false
  | .bool b => b
  | .num n => !(n = 0)
  | .str s => !s.isEmpty
  | .arr _ => true
  | .obj _ => true

/-- Property access `v[k]`: `undefined` (here `null`) when the value is
not an object or lacks the property. -/
def Json.getField (v : Json) (k : List Char) : Json :=
  match v with
  | .obj fields =>
    match fields.lookup k with
    | some w => w
    | none => .null
  | _ => .null

/-- `Array.isArray`. -/
def Json.isArr : Json → Bool
  | .arr _ => true
  | _ => false

/-- The length of an array value, 0 otherwise. -/
def Json.arrLen : Json → Nat
  | .arr xs => xs.length
  | _ => 0

/-- `v[0]` on an array. -/
def Json.first : Json → Json
  | .arr (x :: _) => x
  | _ => .null

/-- Whether a runtime value is `null`/`undefined` (the nullish values
that make a property access throw). -/
def Json.isNull : Json → Bool
  | .null => true
  | _ => false

/-- A thrown JavaScript TypeError: a property access on a nullish value,
or a call of a non-function, as `validateApiResponse` raises on
malformed response shapes. -/
inductive JsTypeError
  | typeError
deriving DecidableEq

/-- The search `parts.find((p) => p.text && !p.thought)` over an array:
`find` applies the callback to the elements in order, and the callback's
`p.text` throws a TypeError when the element is nullish; elements after
the first qualifying one are never visited. -/
def findTextPart : List Json → Except JsTypeError Bool
  | [] => .ok false
  | p :: rest =>
    if p.isNull then .error .typeError
    else if (p.getField ("text" : String).data).truthy
        && !(p.getField ("thought" : String).data).truthy then .ok true
    else findTextPart rest

/-- `validateApiResponse` (src/validation.ts lines 418-473).  A tag
outside the enumeration falls through the `switch` and returns the
initial valid result.  JavaScript evaluation can throw here, and the
throw paths are modelled: `choices[0].message`, `content[0].text` and
`candidates[0].content` throw a TypeError when the leading array element
is nullish (the array was already checked non-empty); `parts?.find(...)`
short-circuits only when `parts` is nullish, so a truthy or non-nullish
non-array `parts` makes the `.find` call throw; and the `find` callback
throws on nullish array elements (`findTextPart`). -/
def validateApiResponse (response : Json) (provider : AIProviderTag) :
    Except JsTypeError ValidationResult :=
  if !response.truthy then
    .ok { valid := false, errors := [("API response is empty" : String).data], warnings := [] }
  else
    match provider with
    | .openai =>
      let choices := response.getField ("choices" : String).data
      if !choices.truthy || !choices.isArr || choices.arrLen = 0 then
        .ok { valid := false, errors := [("Invalid OpenAI response format" : String).data], warnings := [] }
      else if choices.first.isNull then
        .error .typeError
      else if !((choices.first.getField ("message" : String).data).getField ("content" : String).data).truthy then
        .ok { valid := false, errors := [("OpenAI response missing content" : String).data], warnings := [] }
      else
        .ok { valid := true, errors := [], warnings := [] }
    | .anthropic =>
      let contentArr := response.getField ("content" : String).data
      if !contentArr.truthy || !contentArr.isArr || contentArr.arrLen = 0 then
        .ok { valid := false, errors := [("Invalid Anthropic response format" : String).data], warnings := [] }
      else if contentArr.first.isNull then
        .error .typeError
      else if !(contentArr.first.getField ("text" : String).data).truthy then
        .ok { valid := false, errors := [("Anthropic response missing text" : String).data], warnings := [] }
      else
        .ok { valid := true, errors := [], warnings := [] }
    | .google =>
      let candidates := response.getField ("candidates" : String).data
      if !candidates.truthy || !candidates.isArr || candidates.arrLen = 0 then
        .ok { valid := false, errors := [("Invalid Google response format" : String).data], warnings := [] }
      else if candidates.first.isNull then
        .error .typeError
      else
        let parts := (candidates.first.getField ("content" : String).data).getField ("parts" : String).data
        match parts with
        | .null =>
          .ok { valid := false, errors := [("Google response missing text" : String).data], warnings := [] }
        | .arr ps =>
          match findTextPart ps with
          | .error e => .error e
          | .ok true => .ok { valid := true, errors := [], warnings := [] }
          | .ok false =>
            .ok { valid := false, errors := [("Google response missing text" : String).data], warnings := [] }
        | _ => .error .typeError
    | .other _ =>
      .ok { valid := true, errors := [], warnings := [] }

/-! ## Helper lemmas -/

/-- The truncation safeguard bounds the final title's length. -/
theorem finalizeTitle_length_le (s : TitleGeneratorSettings) (t : List Char) :
    (finalizeTitle s t).length ≤ s.maxTitleLength := by
  simp only [finalizeTitle, truncateTitle, List.length_take]
  exact Nat.min_le_left _ _

/-- A configuration-valid run whose three potential calls all resolve,
computed branch by branch from the loop. -/
theorem generateTitle_ok_unfold (s : TitleGeneratorSettings) (n : List Char)
    (p : Nat → Except (List Char) (List Char)) (hcfg : isConfigurationValid s = true)
    (r1 r2 r3 : List Char) (h1 : p 1 = .ok r1) (h2 : p 2 = .ok r2) (h3 : p 3 = .ok r3) :
    generateTitle s n p =
      (if 0 < (cleanAIResponse r1).length ∧ (cleanAIResponse r1).length ≤ s.maxTitleLength then
        { title := finalizeTitle s (cleanAIResponse r1),
          attempts := [{ idx := 1, prompt := mkInitialPrompt s,
                         content := n.take s.maxContentLength, raw := r1,
                         cleaned := cleanAIResponse r1 }],
          calls := 1, errored := false }
      else if 0 < (cleanAIResponse r2).length ∧ (cleanAIResponse r2).length ≤ s.maxTitleLength then
        { title := finalizeTitle s (cleanAIResponse r2),
          attempts := [{ idx := 1, prompt := mkInitialPrompt s,
                         content := n.take s.maxContentLength, raw := r1,
                         cleaned := cleanAIResponse r1 },
                       { idx := 2, prompt := mkRefinePrompt s (cleanAIResponse r1),
                         content := [], raw := r2, cleaned := cleanAIResponse r2 }],
          calls := 2, errored := false }
      else
        { title := finalizeTitle s (cleanAIResponse r3),
          attempts := [{ idx := 1, prompt := mkInitialPrompt s,
                         content := n.take s.maxContentLength, raw := r1,
                         cleaned := cleanAIResponse r1 },
                       { idx := 2, prompt := mkRefinePrompt s (cleanAIResponse r1),
                         content := [], raw := r2, cleaned := cleanAIResponse r2 },
                       { idx := 3, prompt := mkRefinePrompt s (cleanAIResponse r2),
                         content := [], raw := r3, cleaned := cleanAIResponse r3 }],
          calls := 3, errored := false }) := by
  by_cases hv1 : 0 < (cleanAIResponse r1).length ∧ (cleanAIResponse r1).length ≤ s.maxTitleLength
  · simp [generateTitle, genLoop, hcfg, h1, hv1]
  · by_cases hv2 : 0 < (cleanAIResponse r2).length ∧ (cleanAIResponse r2).length ≤ s.maxTitleLength
    · simp [generateTitle, genLoop, hcfg, h1, h2, hv1, hv2]
    · simp [generateTitle, genLoop, hcfg, h1, h2, h3, hv1, hv2]

/-- A run whose first provider call throws. -/
theorem generateTitle_err1_unfold (s : TitleGeneratorSettings) (n : List Char)
    (p : Nat → Except (List Char) (List Char)) (hcfg : isConfigurationValid s = true)
    (e : List Char) (h1 : p 1 = .error e) :
    generateTitle s n p = { title := [], attempts := [], calls := 1, errored := true } := by
  simp [generateTitle, genLoop, hcfg, h1]

/-- A run whose first call resolves to an unusable title and whose second
call throws. -/
theorem generateTitle_err2_unfold (s : TitleGeneratorSettings) (n : List Char)
    (p : Nat → Except (List Char) (List Char)) (hcfg : isConfigurationValid s = true)
    (r1 e : List Char) (h1 : p 1 = .ok r1)
    (hv1 : ¬(0 < (cleanAIResponse r1).length ∧ (cleanAIResponse r1).length ≤ s.maxTitleLength))
    (h2 : p 2 = .error e) :
    generateTitle s n p =
      { title := [],
        attempts := [{ idx := 1, prompt := mkInitialPrompt s,
                       content := n.take s.maxContentLength, raw := r1,
                       cleaned := cleanAIResponse r1 }],
        calls := 2, errored := true } := by
  simp [generateTitle, genLoop, hcfg, h1, h2, hv1]

/-- A run whose first two calls resolve to unusable titles and whose
third call throws. -/
theorem generateTitle_err3_unfold (s : TitleGeneratorSettings) (n : List Char)
    (p : Nat → Except (List Char) (List Char)) (hcfg : isConfigurationValid s = true)
    (r1 r2 e : List Char) (h1 : p 1 = .ok r1)
    (hv1 : ¬(0 < (cleanAIResponse r1).length ∧ (cleanAIResponse r1).length ≤ s.maxTitleLength))
    (h2 : p 2 = .ok r2)
    (hv2 : ¬(0 < (cleanAIResponse r2).length ∧ (cleanAIResponse r2).length ≤ s.maxTitleLength))
    (h3 : p 3 = .error e) :
    generateTitle s n p =
      { title := [],
        attempts := [{ idx := 1, prompt := mkInitialPrompt s,
                       content := n.take s.maxContentLength, raw := r1,
                       cleaned := cleanAIResponse r1 },
                     { idx := 2, prompt := mkRefinePrompt s (cleanAIResponse r1),
                       content := [], raw := r2, cleaned := cleanAIResponse r2 }],
        calls := 3, errored := true } := by
  simp [generateTitle, genLoop, hcfg, h1, h2, h3, hv1, hv2]

/-- `splitFirst` really splits at an occurrence of the pattern. -/
theorem splitFirst_eq_append {pat : List Char} :
    ∀ {xs pre post : List Char}, splitFirst pat xs = some (pre, post) →
      xs = pre ++ pat ++ post := by
  intro xs
  induction xs with
  | nil =>
    intro pre post h
    by_cases hp : pat = []
    · simp [splitFirst, hp] at h
      obtain ⟨h1, h2⟩ := h
      subst h1
      subst h2
      subst hp
      rfl
    · simp [splitFirst, hp] at h
  | cons c rest ih =>
    intro pre post h
    by_cases hpre : pat.isPrefixOf (c :: rest)
    · simp [splitFirst, hpre] at h
      obtain ⟨h1, h2⟩ := h
      subst h1
      subst h2
      obtain ⟨t, ht⟩ := List.isPrefixOf_iff_prefix.mp hpre
      rw [List.nil_append, ← ht, List.drop_left]
    · simp only [splitFirst, if_neg hpre] at h
      rcases hsp : splitFirst pat rest with _ | ⟨pre1, post1⟩
      · rw [hsp] at h
        simp at h
      · rw [hsp] at h
        simp at h
        obtain ⟨h1, h2⟩ := h
        subst h1
        subst h2
        rw [ih hsp]
        simp

/-- The part of the input before the occurrence found by `splitFirst`
contains no occurrence of the (non-empty) pattern: `splitFirst` finds the
first occurrence. -/
theorem splitFirst_pre_not_contains {pat : List Char} (hne : pat ≠ []) :
    ∀ {xs pre post : List Char}, splitFirst pat xs = some (pre, post) →
      containsSub pre pat = false := by
  intro xs
  induction xs with
  | nil =>
    intro pre post h
    simp [splitFirst, hne] at h
  | cons c rest ih =>
    intro pre post h
    by_cases hpre : pat.isPrefixOf (c :: rest)
    · simp [splitFirst, hpre] at h
      obtain ⟨h1, h2⟩ := h
      subst h1
      cases pat with
      | nil => exact absurd rfl hne
      | cons a as => simp [containsSub, splitFirst]
    · simp only [splitFirst, if_neg hpre] at h
      rcases hsp : splitFirst pat rest with _ | ⟨pre1, post1⟩
      · rw [hsp] at h
        simp at h
      · rw [hsp] at h
        simp at h
        obtain ⟨h1, h2⟩ := h
        subst h1
        have hrest := splitFirst_eq_append hsp
        have hnotpre1 : ¬ pat.isPrefixOf (c :: pre1) := by
          intro hcon
          apply hpre
          rw [List.isPrefixOf_iff_prefix] at hcon ⊢
          refine hcon.trans ?_
          rw [hrest]
          exact ⟨pat ++ post1, by simp⟩
        have hnone : splitFirst pat pre1 = none := by
          rcases hsp2 : splitFirst pat pre1 with _ | v
          · rfl
          · have hc := ih hsp
            rw [containsSub, hsp2] at hc
            simp at hc
        simp [containsSub, splitFirst, hnotpre1, hnone]

/-- `replaceFirst` rewrites exactly the occurrence found by
`splitFirst`, keeping the rest of the string verbatim. -/
theorem replaceFirst_of_splitFirst {xs pat rep pre post : List Char}
    (h : splitFirst pat xs = some (pre, post)) :
    replaceFirst xs pat rep = pre ++ rep ++ post := by
  simp [replaceFirst, h]

/-- `validateApiKey` marks the result invalid exactly when it records an
error. -/
theorem validateApiKey_valid_iff (k : List Char) (pr : AIProviderTag) :
    (validateApiKey k pr).valid = true ↔ (validateApiKey k pr).errors = [] := by
  simp only [validateApiKey]
  split_ifs <;> simp

/-- `validateModelName` marks the result invalid exactly when it records
an error. -/
theorem validateModelName_valid_iff (m : List Char) (pr : AIProviderTag) :
    (validateModelName m pr).valid = true ↔ (validateModelName m pr).errors = [] := by
  simp only [validateModelName]
  split_ifs <;> simp

/-- `validatePrompt` marks the result invalid exactly when it records an
error. -/
theorem validatePrompt_valid_iff (t : List Char) (ref : Bool) :
    (validatePrompt t ref).valid = true ↔ (validatePrompt t ref).errors = [] := by
  simp only [validatePrompt]
  cases ref <;> simp only [Bool.false_eq_true, if_false, if_true, List.foldl_cons, List.foldl_nil] <;>
    split_ifs <;> simp

/-- `validateTemperature` marks the result invalid exactly when it
records an error. -/
theorem validateTemperature_valid_iff (t : Rat) :
    (validateTemperature t).valid = true ↔ (validateTemperature t).errors = [] := by
  simp only [validateTemperature]
  split_ifs <;> simp

/-- `validateMaxTitleLength` marks the result invalid exactly when it
records an error. -/
theorem validateMaxTitleLength_valid_iff (v : Int) :
    (validateMaxTitleLength v).valid = true ↔ (validateMaxTitleLength v).errors = [] := by
  simp only [validateMaxTitleLength]
  split_ifs <;> simp

/-- `validateMaxContentLength` marks the result invalid exactly when it
records an error. -/
theorem validateMaxContentLength_valid_iff (v : Int) :
    (validateMaxContentLength v).valid = true ↔ (validateMaxContentLength v).errors = [] := by
  simp only [validateMaxContentLength]
  split_ifs <;> simp

/-- Every result `validateApiResponse` returns (rather than throws) is
marked invalid exactly when it records an error. -/
theorem validateApiResponse_ok_valid_iff (j : Json) (pr : AIProviderTag) (r : ValidationResult)
    (h : validateApiResponse j pr = .ok r) : r.valid = true ↔ r.errors = [] := by
  cases pr <;> simp only [validateApiResponse] at h <;>
    split_ifs at h <;>
    first
      | (simp only [Except.ok.injEq] at h; rw [← h]; simp)
      | simp at h
      | (split at h <;>
          first
            | (simp only [Except.ok.injEq] at h; rw [← h]; simp)
            | simp at h
            | (split at h <;>
                first
                  | (simp only [Except.ok.injEq] at h; rw [← h]; simp)
                  | simp at h))

/-- Aggregation preserves the valid-iff-no-errors invariant. -/
theorem vrCombine_valid_iff {a b : ValidationResult}
    (ha : a.valid = true ↔ a.errors = []) (hb : b.valid = true ↔ b.errors = []) :
    (vrCombine a b).valid = true ↔ (vrCombine a b).errors = [] := by
  simp only [vrCombine, Bool.and_eq_true, List.append_eq_nil]
  constructor
  · rintro ⟨x, y⟩
    exact ⟨ha.mp x, hb.mp y⟩
  · rintro ⟨x, y⟩
    exact ⟨ha.mpr x, hb.mpr y⟩

/-- Folding the aggregation over parts that satisfy the invariant
preserves it. -/
theorem foldl_vrCombine_valid_iff (parts : List ValidationResult) :
    ∀ init : ValidationResult, (init.valid = true ↔ init.errors = []) →
      (∀ q ∈ parts, q.valid = true ↔ q.errors = []) →
      ((parts.foldl vrCombine init).valid = true ↔ (parts.foldl vrCombine init).errors = []) := by
  induction parts with
  | nil => intro init hi _; exact hi
  | cons q qs ih =>
    intro init hi hq
    simp only [List.foldl_cons]
    exact ih (vrCombine init q) (vrCombine_valid_iff hi (hq q (by simp)))
      (fun x hx => hq x (by simp [hx]))

/-- A `validateSettings` result that was returned (rather than thrown)
satisfies the valid-iff-no-errors invariant. -/
theorem validateSettings_ok_valid_iff (s : TitleGeneratorSettings) (r : ValidationResult)
    (h : validateSettings s = .ok r) : r.valid = true ↔ r.errors = [] := by
  have hparts : ∀ keyPart modelPart : ValidationResult,
      (keyPart.valid = true ↔ keyPart.errors = []) →
      (modelPart.valid = true ↔ modelPart.errors = []) →
      ∀ q ∈ [keyPart, modelPart,
        validatePrompt s.customPrompt false,
        validatePrompt s.refinePrompt true,
        validateTemperature s.temperature,
        validateMaxTitleLength (s.maxTitleLength : Int),
        validateMaxContentLength (s.maxContentLength : Int)],
        q.valid = true ↔ q.errors = [] := by
    intro keyPart modelPart hk hm q hq
    simp only [List.mem_cons, List.not_mem_nil, or_false] at hq
    rcases hq with rfl | rfl | rfl | rfl | rfl | rfl | rfl
    · exact hk
    · exact hm
    · exact validatePrompt_valid_iff _ _
    · exact validatePrompt_valid_iff _ _
    · exact validateTemperature_valid_iff _
    · exact validateMaxTitleLength_valid_iff _
    · exact validateMaxContentLength_valid_iff _
  cases hp : s.aiProvider with
  | other t =>
    rw [validateSettings, hp] at h
    simp [getApiKeyField, Bind.bind, Except.bind] at h
  | openai =>
    rw [validateSettings, hp] at h
    simp only [getApiKeyField, getModelField, Bind.bind, Except.bind, pure, Except.pure,
      Except.ok.injEq] at h
    rw [← h]
    split_ifs with h1 h2 h2 <;>
      exact foldl_vrCombine_valid_iff _ _ (by simp) (hparts _ _ (by first | exact validateApiKey_valid_iff _ _ | simp) (by first | exact validateModelName_valid_iff _ _ | simp))
  | anthropic =>
    rw [validateSettings, hp] at h
    simp only [getApiKeyField, getModelField, Bind.bind, Except.bind, pure, Except.pure,
      Except.ok.injEq] at h
    rw [← h]
    split_ifs with h1 h2 h2 <;>
      exact foldl_vrCombine_valid_iff _ _ (by simp) (hparts _ _ (by first | exact validateApiKey_valid_iff _ _ | simp) (by first | exact validateModelName_valid_iff _ _ | simp))
  | google =>
    rw [validateSettings, hp] at h
    simp only [getApiKeyField, getModelField, Bind.bind, Except.bind, pure, Except.pure,
      Except.ok.injEq] at h
    rw [← h]
    split_ifs with h1 h2 h2 <;>
      exact foldl_vrCombine_valid_iff _ _ (by simp) (hparts _ _ (by first | exact validateApiKey_valid_iff _ _ | simp) (by first | exact validateModelName_valid_iff _ _ | simp))

/-! ## Concrete fixtures used by witnesses -/

/-- `TITLE_CONFIG.DEFAULT_PROMPT` / `DEFAULT_SETTINGS.customPrompt`. -/
def defaultPromptChars : List Char :=
  ("Create a concise title for this text. Respond with ONLY the title - no explanations, quotes, or extra text. Maximum {max_length} characters." : String).data

/-- `TITLE_CONFIG.DEFAULT_REFINE_PROMPT` / `DEFAULT_SETTINGS.refinePrompt`. -/
def defaultRefineChars : List Char :=
  ("Make this title shorter (under {max_length} characters): \"{title}\". Respond with ONLY the new title." : String).data

/-- A fully populated, configuration-valid settings snapshot (default
settings of src/settings.ts with an OpenAI key filled in). -/
def exampleSettings : TitleGeneratorSettings where
  aiProvider := .openai
  openAiApiKey := ("sk-test-key-1234567890" : String).data
  anthropicApiKey := []
  googleApiKey := []
  openAiModel := ("gpt-5-mini" : String).data
  anthropicModel := ("claude-haiku-4-5" : String).data
  googleModel := ("gemini-3-flash-preview" : String).data
  lowerCaseTitles := false
  removeForbiddenChars := true
  customPrompt := defaultPromptChars
  temperature := 3 / 10
  maxTitleLength := 60
  maxContentLength := 2000
  refinePrompt := defaultRefineChars

/-- A sample note content. -/
def exampleNote : List Char :=
  ("Quarterly report on coffee consumption." : String).data

/-- A short, clean stub response: its cleaned title is valid on the first
attempt. -/
def goodRaw : List Char := ("Coffee Consumption Report" : String).data

/-- A stub provider that always resolves to `goodRaw`. -/
def providerGood : Nat → Except (List Char) (List Char) := fun _ => .ok goodRaw

/-- An over-length stub response (longer than 60 characters once
cleaned). -/
def longRaw : List Char :=
  ("An Exhaustive And Remarkably Detailed Report On Coffee Consumption Trends" : String).data

/-- A stub provider whose first response is over-length and whose later
responses are short and valid. -/
def providerRefine : Nat → Except (List Char) (List Char) :=
  fun i => if i = 1 then .ok longRaw else .ok goodRaw

/-- A stub provider whose calls always throw. -/
def providerBoom : Nat → Except (List Char) (List Char) :=
  fun _ => .error (("OpenAI API error (500): boom" : String).data)

/-- `exampleSettings` with a blank (whitespace-only) OpenAI key. -/
def blankKeySettings : TitleGeneratorSettings :=
  { exampleSettings with openAiApiKey := ("   " : String).data }

/-- `exampleSettings` with a provider tag outside the closed
enumeration. -/
def badProviderSettings : TitleGeneratorSettings :=
  { exampleSettings with aiProvider := .other ("custom" : String).data }

/-! ## Claims -/

/-- C2, counterexample: the Response Cleaner applied to
`"<think>reasoning</think>"` does not return the empty string. -/
theorem c2_counterexample :
    ¬ cleanAIResponse (("<think>reasoning</think>" : String).data) = [] := by decide

/-- C2, amended: on the input `"<think>reasoning</think>"` — exactly one
reasoning block spanning the whole string — `cleanAIResponse` unwraps
the block and returns the interior content `"reasoning"`, not the empty
string. -/
theorem c2_amended_unwraps_interior :
    cleanAIResponse (("<think>reasoning</think>" : String).data) = ("reasoning" : String).data := by
  decide

/-- C9: `cleanAIResponse "Title: My Great Note" = "My Great Note"`: the
single line matches the conversational-preamble pattern set, so the
cleaner falls back to the first line and then strips the leading label
and the quote characters. -/
theorem c9_label_fallback_and_strip :
    isPreambleLine (("Title: My Great Note" : String).data) = true
    ∧ cleanAIResponse (("Title: My Great Note" : String).data) = ("My Great Note" : String).data := by
  constructor
  · decide
  · decide

/-- C4: when the active provider's API key is blank after trimming or its
model is empty, `generateTitle` returns the empty string with zero
provider calls. -/
theorem c4_missing_config_short_circuits (s : TitleGeneratorSettings) (n : List Char)
    (p : Nat → Except (List Char) (List Char))
    (h : (s.aiProvider = .openai ∧ (trimChars s.openAiApiKey = [] ∨ s.openAiModel = []))
       ∨ (s.aiProvider = .anthropic ∧ (trimChars s.anthropicApiKey = [] ∨ s.anthropicModel = []))
       ∨ (s.aiProvider = .google ∧ (trimChars s.googleApiKey = [] ∨ s.googleModel = []))) :
    generateTitle s n p = { title := [], attempts := [], calls := 0, errored := false } := by
  have hcfg : isConfigurationValid s = false := by
    rcases h with ⟨hp, hkm⟩ | ⟨hp, hkm⟩ | ⟨hp, hkm⟩ <;>
      rcases hkm with h0 | h0 <;>
      simp [isConfigurationValid, hp, h0]
  simp [generateTitle, hcfg]

/-- C4 witness: a blank OpenAI key short-circuits with zero calls. -/
theorem c4_witness :
    generateTitle blankKeySettings exampleNote providerGood
      = { title := [], attempts := [], calls := 0, errored := false } :=
  c4_missing_config_short_circuits blankKeySettings exampleNote providerGood
    (Or.inl ⟨rfl, Or.inl (by decide)⟩)

/-- C5: every provider exception is caught at the orchestrator boundary:
an errored outcome always carries the empty string, and whenever the loop
reaches a throwing call (on attempt 1, 2 or 3) the result is the empty
string with the catch block reached — no exception escapes
`generateTitle`, which is total. -/
theorem c5_provider_exceptions_caught (s : TitleGeneratorSettings) (n : List Char)
    (p : Nat → Except (List Char) (List Char)) :
    ((generateTitle s n p).errored = true → (generateTitle s n p).title = [])
    ∧ (isConfigurationValid s = true →
       ∀ e : List Char,
        (p 1 = .error e →
          (generateTitle s n p).title = [] ∧ (generateTitle s n p).errored = true)
        ∧ (∀ r1, p 1 = .ok r1 →
            ¬(0 < (cleanAIResponse r1).length ∧ (cleanAIResponse r1).length ≤ s.maxTitleLength) →
            p 2 = .error e →
            (generateTitle s n p).title = [] ∧ (generateTitle s n p).errored = true)
        ∧ (∀ r1 r2, p 1 = .ok r1 →
            ¬(0 < (cleanAIResponse r1).length ∧ (cleanAIResponse r1).length ≤ s.maxTitleLength) →
            p 2 = .ok r2 →
            ¬(0 < (cleanAIResponse r2).length ∧ (cleanAIResponse r2).length ≤ s.maxTitleLength) →
            p 3 = .error e →
            (generateTitle s n p).title = [] ∧ (generateTitle s n p).errored = true)) := by
  refine ⟨?_, ?_⟩
  · by_cases hc : isConfigurationValid s
    · rcases hgl : genLoop s n p 3 1 [] [] with ⟨e, atts, calls⟩ | ⟨t, atts, calls⟩ <;>
        simp [generateTitle, hc, hgl]
    · simp [generateTitle, hc]
  · intro hcfg e
    refine ⟨?_, ?_, ?_⟩
    · intro h1
      rw [generateTitle_err1_unfold s n p hcfg e h1]
      exact ⟨rfl, rfl⟩
    · intro r1 h1 hv1 h2
      rw [generateTitle_err2_unfold s n p hcfg r1 e h1 hv1 h2]
      exact ⟨rfl, rfl⟩
    · intro r1 r2 h1 hv1 h2 hv2 h3
      rw [generateTitle_err3_unfold s n p hcfg r1 r2 e h1 hv1 h2 hv2 h3]
      exact ⟨rfl, rfl⟩

/-- C5 witness: a first-call throw yields the empty string through the
catch block. -/
theorem c5_witness :
    (generateTitle exampleSettings exampleNote providerBoom).title = []
    ∧ (generateTitle exampleSettings exampleNote providerBoom).errored = true :=
  ((c5_provider_exceptions_caught exampleSettings exampleNote providerBoom).2
    (by decide) (("OpenAI API error (500): boom" : String).data)).1 rfl

/-- C1: for a configuration-valid settings snapshot and any sequence of
resolved provider responses, `generateTitle` makes at most 3 calls; it
stops after attempt 1 (resp. 2) when that attempt's cleaned title is
non-empty and within the configured maximum, making no further calls;
when neither of the first two attempts succeeds it exits after exactly 3
calls with the third attempt's cleaned title (post-processed and
truncated, whether or not that attempt succeeded); and the returned
string's length never exceeds the configured `maxTitleLength` thanks to
the unconditional final truncation. -/
theorem c1_bounded_loop_early_stop_and_truncation (s : TitleGeneratorSettings) (n : List Char)
    (p : Nat → Except (List Char) (List Char)) (hcfg : isConfigurationValid s = true)
    (r1 r2 r3 : List Char) (h1 : p 1 = .ok r1) (h2 : p 2 = .ok r2) (h3 : p 3 = .ok r3) :
    (generateTitle s n p).calls ≤ 3
    ∧ ((0 < (cleanAIResponse r1).length ∧ (cleanAIResponse r1).length ≤ s.maxTitleLength) →
        (generateTitle s n p).calls = 1
        ∧ (generateTitle s n p).title = finalizeTitle s (cleanAIResponse r1))
    ∧ (¬(0 < (cleanAIResponse r1).length ∧ (cleanAIResponse r1).length ≤ s.maxTitleLength) →
       (0 < (cleanAIResponse r2).length ∧ (cleanAIResponse r2).length ≤ s.maxTitleLength) →
        (generateTitle s n p).calls = 2
        ∧ (generateTitle s n p).title = finalizeTitle s (cleanAIResponse r2))
    ∧ (¬(0 < (cleanAIResponse r1).length ∧ (cleanAIResponse r1).length ≤ s.maxTitleLength) →
       ¬(0 < (cleanAIResponse r2).length ∧ (cleanAIResponse r2).length ≤ s.maxTitleLength) →
        (generateTitle s n p).calls = 3
        ∧ (generateTitle s n p).title = finalizeTitle s (cleanAIResponse r3))
    ∧ (generateTitle s n p).title.length ≤ s.maxTitleLength := by
  rw [generateTitle_ok_unfold s n p hcfg r1 r2 r3 h1 h2 h3]
  by_cases hv1 : 0 < (cleanAIResponse r1).length ∧ (cleanAIResponse r1).length ≤ s.maxTitleLength
  · rw [if_pos hv1]
    refine ⟨by simp, fun _ => ⟨rfl, rfl⟩, fun hn _ => absurd hv1 hn,
      fun hn _ => absurd hv1 hn, finalizeTitle_length_le s _⟩
  · by_cases hv2 : 0 < (cleanAIResponse r2).length ∧ (cleanAIResponse r2).length ≤ s.maxTitleLength
    · rw [if_neg hv1, if_pos hv2]
      refine ⟨by simp, fun hv => absurd hv hv1, fun _ _ => ⟨rfl, rfl⟩,
        fun _ hn => absurd hv2 hn, finalizeTitle_length_le s _⟩
    · rw [if_neg hv1, if_neg hv2]
      refine ⟨by simp, fun hv => absurd hv hv1, fun _ hv => absurd hv hv2,
        fun _ _ => ⟨rfl, rfl⟩, finalizeTitle_length_le s _⟩

/-- C1 witness: a valid configuration with an always-good stub provider
stays within the call bound and the length bound. -/
theorem c1_witness :
    isConfigurationValid exampleSettings = true
    ∧ (generateTitle exampleSettings exampleNote providerGood).calls ≤ 3
    ∧ (generateTitle exampleSettings exampleNote providerGood).title.length
        ≤ exampleSettings.maxTitleLength :=
  ⟨by decide,
   (c1_bounded_loop_early_stop_and_truncation exampleSettings exampleNote providerGood
      (by decide) goodRaw goodRaw goodRaw rfl rfl rfl).1,
   (c1_bounded_loop_early_stop_and_truncation exampleSettings exampleNote providerGood
      (by decide) goodRaw goodRaw goodRaw rfl rfl rfl).2.2.2.2⟩

/-- C3: on attempts 2 and 3 the prompt sent is the refinement prompt with
`{max_length}` replaced by the configured maximum and `{title}` replaced
by the previous attempt's cleaned title (`mkRefinePrompt`), with empty
content; and under a stub whose first response cleans to an over-length
title and whose second cleans to a valid one, exactly two attempts
occur. -/
theorem c3_refinement_prompt_and_content (s : TitleGeneratorSettings) (n : List Char)
    (p : Nat → Except (List Char) (List Char)) (hcfg : isConfigurationValid s = true)
    (r1 r2 r3 : List Char) (h1 : p 1 = .ok r1) (h2 : p 2 = .ok r2) (h3 : p 3 = .ok r3) :
    (∀ a : GenerationAttempt, (generateTitle s n p).attempts[1]? = some a →
        a.prompt = mkRefinePrompt s (cleanAIResponse r1) ∧ a.content = [])
    ∧ (∀ a : GenerationAttempt, (generateTitle s n p).attempts[2]? = some a →
        a.prompt = mkRefinePrompt s (cleanAIResponse r2) ∧ a.content = [])
    ∧ (s.maxTitleLength < (cleanAIResponse r1).length →
       0 < (cleanAIResponse r2).length → (cleanAIResponse r2).length ≤ s.maxTitleLength →
        (generateTitle s n p).calls = 2
        ∧ (generateTitle s n p).attempts.length = 2) := by
  rw [generateTitle_ok_unfold s n p hcfg r1 r2 r3 h1 h2 h3]
  by_cases hv1 : 0 < (cleanAIResponse r1).length ∧ (cleanAIResponse r1).length ≤ s.maxTitleLength
  · rw [if_pos hv1]
    refine ⟨?_, ?_, ?_⟩
    · intro a ha
      simp at ha
    · intro a ha
      simp at ha
    · intro hlt _ _
      exact absurd hv1.2 (by omega)
  · by_cases hv2 : 0 < (cleanAIResponse r2).length ∧ (cleanAIResponse r2).length ≤ s.maxTitleLength
    · rw [if_neg hv1, if_pos hv2]
      refine ⟨?_, ?_, ?_⟩
      · intro a ha
        simp at ha
        rw [← ha]
        exact ⟨rfl, rfl⟩
      · intro a ha
        simp at ha
      · intro _ _ _
        exact ⟨rfl, rfl⟩
    · rw [if_neg hv1, if_neg hv2]
      refine ⟨?_, ?_, ?_⟩
      · intro a ha
        simp at ha
        rw [← ha]
        exact ⟨rfl, rfl⟩
      · intro a ha
        simp at ha
        rw [← ha]
        exact ⟨rfl, rfl⟩
      · intro _ hb hc
        exact absurd ⟨hb, hc⟩ hv2

/-- C3 witness: under `providerRefine` (over-length first response, valid
second response) exactly two attempts occur, and the second attempt
carries the substituted refinement prompt with empty content. -/
theorem c3_witness :
    exampleSettings.maxTitleLength < (cleanAIResponse longRaw).length
    ∧ (generateTitle exampleSettings exampleNote providerRefine).calls = 2
    ∧ (generateTitle exampleSettings exampleNote providerRefine).attempts.length = 2 :=
  ⟨by decide,
   (c3_refinement_prompt_and_content exampleSettings exampleNote providerRefine (by decide)
      longRaw goodRaw goodRaw rfl rfl rfl).2.2 (by decide) (by decide) (by decide)⟩

/-- C6, counterexample: `validateSettings` on a settings snapshot whose
provider tag is outside the closed enumeration does not return a
`ValidationResult` — it propagates the `UNKNOWN_PROVIDER` error thrown by
`getApiKeyField`. -/
theorem c6_counterexample :
    validateSettings badProviderSettings
      = Except.error (unknownProviderError (.other (("custom" : String).data))) := rfl

/-- An Anthropic-shaped response whose content array starts with a null
element: `content[0].text` throws a TypeError on it
(src/validation.ts line 447). -/
def anthropicNullElementResponse : Json :=
  Json.obj [(("content" : String).data, Json.arr [Json.null])]

/-- C6, amended: `validateSettings` returns a `ValidationResult` (never
throws) for each of the three provider tags of the closed enumeration,
but not for every tag in the settings: for a tag outside the enumeration
it propagates the thrown `UNKNOWN_PROVIDER` `TitleGeneratorError`
instead of returning.  The claim's blanket never-throws guarantee also
fails for `validateApiResponse`, which throws a TypeError on malformed
shapes such as a content array starting with a null element. -/
theorem c6_amended_settings_validation_totality (s : TitleGeneratorSettings) :
    ((s.aiProvider = .openai ∨ s.aiProvider = .anthropic ∨ s.aiProvider = .google) →
      ∃ r : ValidationResult, validateSettings s = .ok r)
    ∧ (∀ t : List Char, s.aiProvider = .other t →
        validateSettings s = .error (unknownProviderError (.other t)))
    ∧ validateApiResponse anthropicNullElementResponse .anthropic = .error .typeError := by
  obtain ⟨tag, k1, k2, k3, m1, m2, m3, lc, rm, cp, tp, mt, mc, rp⟩ := s
  refine ⟨?_, ?_, rfl⟩
  · rintro (hp | hp | hp) <;> dsimp only at hp <;> subst hp <;> exact ⟨_, rfl⟩
  · intro t hp
    dsimp only at hp
    subst hp
    rfl

/-- C6 witness: a known tag yields a returned result, the out-of-range
tag yields the thrown unknown-provider error, and the null-element
response yields the thrown TypeError. -/
theorem c6_witness :
    (validateSettings exampleSettings).isOk = true
    ∧ validateSettings badProviderSettings
        = Except.error (unknownProviderError (.other (("custom" : String).data)))
    ∧ validateApiResponse anthropicNullElementResponse .anthropic = .error .typeError := by
  refine ⟨?_, (c6_amended_settings_validation_totality badProviderSettings).2.1 _ rfl,
    (c6_amended_settings_validation_totality exampleSettings).2.2⟩
  obtain ⟨r, hr⟩ :=
    (c6_amended_settings_validation_totality exampleSettings).1 (Or.inl rfl)
  rw [hr]
  rfl

/-- C7: for the three length-bounded fields — API key [10, 200], max
title length [10, 500], max content length [100, 10000] — a value exactly
at either bound validates, and a value one unit outside either bound is
rejected. -/
theorem c7_boundary_values :
    (∀ (k : List Char) (pr : AIProviderTag), (trimChars k).length = 10 →
        (validateApiKey k pr).valid = true)
    ∧ (∀ (k : List Char) (pr : AIProviderTag), (trimChars k).length = 200 →
        (validateApiKey k pr).valid = true)
    ∧ (∀ (k : List Char) (pr : AIProviderTag), (trimChars k).length = 9 →
        (validateApiKey k pr).valid = false)
    ∧ (∀ (k : List Char) (pr : AIProviderTag), (trimChars k).length = 201 →
        (validateApiKey k pr).valid = false)
    ∧ (validateMaxTitleLength 10).valid = true
    ∧ (validateMaxTitleLength 500).valid = true
    ∧ (validateMaxTitleLength 9).valid = false
    ∧ (validateMaxTitleLength 501).valid = false
    ∧ (validateMaxContentLength 100).valid = true
    ∧ (validateMaxContentLength 10000).valid = true
    ∧ (validateMaxContentLength 99).valid = false
    ∧ (validateMaxContentLength 10001).valid = false := by
  refine ⟨?_, ?_, ?_, ?_, by decide, by decide, by decide, by decide,
    by decide, by decide, by decide, by decide⟩ <;>
  · intro k pr h
    have hk : ¬ k = [] := by
      intro h0
      subst h0
      simp [trimChars] at h
    have ht : ¬ trimChars k = [] := by
      intro h0
      rw [h0] at h
      simp at h
    simp [validateApiKey, hk, ht, h]

/-- Keys of the exact boundary lengths and one unit outside them. -/
def apiKey10 : List Char := List.replicate 10 'a'

/-- A 9-character key, one unit below the lower bound. -/
def apiKey9 : List Char := List.replicate 9 'a'

/-- A 200-character key, exactly at the upper bound. -/
def apiKey200 : List Char := List.replicate 200 'a'

/-- A 201-character key, one unit above the upper bound. -/
def apiKey201 : List Char := List.replicate 201 'a'

/-- C7 witness: the boundary behaviour at concrete keys. -/
theorem c7_witness :
    ((trimChars apiKey10).length = 10 ∧ (validateApiKey apiKey10 .openai).valid = true)
    ∧ ((trimChars apiKey200).length = 200 ∧ (validateApiKey apiKey200 .google).valid = true)
    ∧ ((trimChars apiKey9).length = 9 ∧ (validateApiKey apiKey9 .anthropic).valid = false)
    ∧ ((trimChars apiKey201).length = 201 ∧ (validateApiKey apiKey201 .openai).valid = false) :=
  ⟨⟨by decide, c7_boundary_values.1 apiKey10 .openai (by decide)⟩,
   ⟨by decide, c7_boundary_values.2.1 apiKey200 .google (by decide)⟩,
   ⟨by decide, c7_boundary_values.2.2.1 apiKey9 .anthropic (by decide)⟩,
   ⟨by decide, c7_boundary_values.2.2.2.1 apiKey201 .openai (by decide)⟩⟩

/-- C8: every Validation Service operation returning a
`ValidationResult` satisfies `valid = true` exactly when its error list
is empty, for every input; warnings are collected separately and never
influence validity.  For `validateApiResponse` and `validateSettings`
this covers every result the two functions actually return — their throw
paths (a TypeError on malformed response shapes, the UNKNOWN_PROVIDER
error of C6) return no `ValidationResult` at all. -/
theorem c8_valid_iff_errors_empty :
    (∀ (k : List Char) (pr : AIProviderTag),
        (validateApiKey k pr).valid = true ↔ (validateApiKey k pr).errors = [])
    ∧ (∀ (m : List Char) (pr : AIProviderTag),
        (validateModelName m pr).valid = true ↔ (validateModelName m pr).errors = [])
    ∧ (∀ (t : List Char) (ref : Bool),
        (validatePrompt t ref).valid = true ↔ (validatePrompt t ref).errors = [])
    ∧ (∀ t : Rat,
        (validateTemperature t).valid = true ↔ (validateTemperature t).errors = [])
    ∧ (∀ v : Int,
        (validateMaxTitleLength v).valid = true ↔ (validateMaxTitleLength v).errors = [])
    ∧ (∀ v : Int,
        (validateMaxContentLength v).valid = true ↔ (validateMaxContentLength v).errors = [])
    ∧ (∀ (j : Json) (pr : AIProviderTag) (r : ValidationResult),
        validateApiResponse j pr = .ok r → (r.valid = true ↔ r.errors = []))
    ∧ (∀ (s : TitleGeneratorSettings) (r : ValidationResult),
        validateSettings s = .ok r → (r.valid = true ↔ r.errors = [])) :=
  ⟨validateApiKey_valid_iff, validateModelName_valid_iff, validatePrompt_valid_iff,
   validateTemperature_valid_iff, validateMaxTitleLength_valid_iff,
   validateMaxContentLength_valid_iff, validateApiResponse_ok_valid_iff,
   validateSettings_ok_valid_iff⟩

/-- The concrete result `validateSettings` returns on
`exampleSettings`. -/
def exampleSettingsResult : ValidationResult :=
  (validateSettings exampleSettings).toOption.getD { valid := false, errors := [], warnings := [] }

/-- A well-shaped Anthropic response: a content array whose head carries
a text block. -/
def anthropicTextResponse : Json :=
  Json.obj [(("content" : String).data,
    Json.arr [Json.obj [(("type" : String).data, Json.str ("text" : String).data),
                        (("text" : String).data, Json.str ("Hi" : String).data)]])]

/-- C8 witness: the invariant at a concrete key validation, at a
concrete returned response validation, and at the concrete returned
settings validation. -/
theorem c8_witness :
    ((validateApiKey apiKey10 .openai).valid = true ↔ (validateApiKey apiKey10 .openai).errors = [])
    ∧ ((ValidationResult.mk true [] []).valid = true ↔ (ValidationResult.mk true [] []).errors = [])
    ∧ (exampleSettingsResult.valid = true ↔ exampleSettingsResult.errors = []) :=
  ⟨c8_valid_iff_errors_empty.1 apiKey10 .openai,
   c8_valid_iff_errors_empty.2.2.2.2.2.2.1 anthropicTextResponse .anthropic
     (ValidationResult.mk true [] []) rfl,
   c8_valid_iff_errors_empty.2.2.2.2.2.2.2 exampleSettings exampleSettingsResult rfl⟩

/-- C10: the placeholder substitutions `generateTitle` performs
(`mkInitialPrompt` for attempt 1, `mkRefinePrompt` for attempts 2-3)
replace only the first occurrence of each placeholder: splitting the
template at the first occurrence, the text before it contains no
occurrence, the occurrence is replaced, and everything after it — later
occurrences included — is kept verbatim. -/
theorem c10_replace_first_occurrence_only (s : TitleGeneratorSettings) (t : List Char)
    (a b c d e f : List Char)
    (h1 : splitFirst mlPat s.customPrompt = some (a, b))
    (h2 : splitFirst mlPat s.refinePrompt = some (c, d))
    (h3 : splitFirst titlePat (c ++ numChars s.maxTitleLength ++ d) = some (e, f)) :
    s.customPrompt = a ++ mlPat ++ b
    ∧ containsSub a mlPat = false
    ∧ mkInitialPrompt s = a ++ numChars s.maxTitleLength ++ b
    ∧ s.refinePrompt = c ++ mlPat ++ d
    ∧ containsSub c mlPat = false
    ∧ c ++ numChars s.maxTitleLength ++ d = e ++ titlePat ++ f
    ∧ containsSub e titlePat = false
    ∧ mkRefinePrompt s t = e ++ t ++ f := by
  have hml : mlPat ≠ [] := by decide
  have htp : titlePat ≠ [] := by decide
  refine ⟨splitFirst_eq_append h1, splitFirst_pre_not_contains hml h1,
    replaceFirst_of_splitFirst h1, splitFirst_eq_append h2,
    splitFirst_pre_not_contains hml h2, splitFirst_eq_append h3,
    splitFirst_pre_not_contains htp h3, ?_⟩
  show replaceFirst (replaceFirst s.refinePrompt mlPat (numChars s.maxTitleLength)) titlePat t
      = e ++ t ++ f
  rw [replaceFirst_of_splitFirst h2]
  exact replaceFirst_of_splitFirst h3

/-- Settings whose prompt templates repeat their placeholders. -/
def dupSettings : TitleGeneratorSettings :=
  { exampleSettings with
      customPrompt := ("Title under {max_length} chars; repeat {max_length} here." : String).data,
      refinePrompt := ("Refine {max_length} now {max_length} title {title} again {title} end" : String).data }

/-- The part of `dupSettings.customPrompt` before the first
`{max_length}`. -/
def dupPromptPre : List Char := ("Title under " : String).data

/-- The part of `dupSettings.customPrompt` after the first
`{max_length}` (still containing a second occurrence). -/
def dupPromptPost : List Char := (" chars; repeat {max_length} here." : String).data

/-- The part of `dupSettings.refinePrompt` before the first
`{max_length}`. -/
def dupRefinePre : List Char := ("Refine " : String).data

/-- The part of `dupSettings.refinePrompt` after the first
`{max_length}`. -/
def dupRefinePost : List Char :=
  (" now {max_length} title {title} again {title} end" : String).data

/-- The part of the half-substituted refinement prompt before the first
`{title}`. -/
def dupTitlePre : List Char := ("Refine 60 now {max_length} title " : String).data

/-- The part of the half-substituted refinement prompt after the first
`{title}` (still containing a second occurrence). -/
def dupTitlePost : List Char := (" again {title} end" : String).data

/-- A stand-in previous title. -/
def oldTitleChars : List Char := ("Old Long Title" : String).data

/-- C10 witness: with both placeholders duplicated, only the first
occurrence of each is substituted and the later ones are forwarded
verbatim. -/
theorem c10_witness :
    mkInitialPrompt dupSettings
      = dupPromptPre ++ numChars dupSettings.maxTitleLength ++ dupPromptPost
    ∧ mkRefinePrompt dupSettings oldTitleChars = dupTitlePre ++ oldTitleChars ++ dupTitlePost :=
  ⟨(c10_replace_first_occurrence_only dupSettings oldTitleChars dupPromptPre dupPromptPost
      dupRefinePre dupRefinePost dupTitlePre dupTitlePost
      (by decide) (by decide) (by decide)).2.2.1,
   (c10_replace_first_occurrence_only dupSettings oldTitleChars dupPromptPre dupPromptPost
      dupRefinePre dupRefinePost dupTitlePre dupTitlePost
      (by decide) (by decide) (by decide)).2.2.2.2.2.2.2⟩

end TitleGen
